import Mathlib

/-!
Formal model of the Iris classification service
(`src/project/backend/app.py`) and its trainer
(`src/project/model/train.py`).

The server is a Flask app with three routes; the one non-trivial handler
is `predict`, which validates a JSON body and runs the loaded classifier.
We embed the handler as a pure function of its two inputs: the
process-wide `model` global (`Option Model`) and the outcome of
`request.get_json()` (`Option Payload`, `none` meaning Flask returned no
parsed body).  Request bodies are modelled as JSON objects: association
lists from field names to values.  A JSON value is only ever probed by
the handler through membership (`field in data`) and `float(...)`
conversion, so we abstract a value to its float-conversion outcome:
either a real number (modelled as `ℚ`) or not convertible.

The classifier artifact is opaque in the source (an object deserialized
by joblib, trusted as-is); we model it as a structure with the two
operations the code uses: `predict` (classify, returning a class index)
and an optional `predict_proba` (per-class probability vector).
-/

/-- A JSON value as seen by the handler: either convertible by Python
`float()` to a real number, or not (`ValueError`/`TypeError`). -/
inductive Val where
  | num (x : ℚ)
  | nonnum
  deriving DecidableEq, Repr

/-- Result of `float(v)`: `some x` on success, `none` when the conversion
raises. -/
def Val.toFloat : Val → Option ℚ
  | .num x => some x
  | .nonnum => none

/-- A parsed JSON object body: field names mapped to values. -/
abbrev Payload := List (String × Val)

/-- `field in data` for a JSON object. -/
def hasField (d : Payload) (f : String) : Bool :=
  (d.lookup f).isSome

/-- The opaque trained classifier.  `predict` is `model.predict` on one
sample (the class index for that sample); `predict_proba` is present
exactly when the model supports probability estimation, in which case it
returns the per-class probability vector for the sample. -/
structure Model where
  predict : List ℚ → ℕ
  predict_proba : Option (List ℚ → List ℚ)

/-- `IRIS_CLASSES` from `app.py`: the fixed index-to-name label table. -/
def IRIS_CLASSES : List String := ["Setosa", "Versicolor", "Virginica"]

/-- `required_fields` from the `predict` handler. -/
def required_fields : List String :=
  ["sepal_length", "sepal_width", "petal_length", "petal_width"]

/-- The success response object built by the handler. -/
structure SuccessResponse where
  prediction : String
  prediction_index : ℕ
  confidence : Option ℚ
  input_data : List (String × ℚ)
  all_classes : List String
  deriving DecidableEq, Repr

/-- The handler's possible outcomes, one constructor per distinct exit of
`predict` in `app.py`.  Error constructors carry the data interpolated
into the JSON error object. -/
inductive PredictResponse where
  /-- 500, `Model not loaded. Please ensure the model file exists.` -/
  | modelNotLoaded
  /-- 400, `No JSON data provided`. -/
  | noData
  /-- 400, `Missing required fields: {missing}` plus the
  `required_fields` list echoed for the caller. -/
  | missingFields (missing : List String) (required : List String)
  /-- 400, `All input values must be valid numbers`. -/
  | notNumbers
  /-- 400, `All measurements must be positive numbers`. -/
  | notPositive
  /-- 500, `Prediction failed: ...` from the catch-all handler. -/
  | internalError
  /-- 200, the success JSON object. -/
  | success (r : SuccessResponse)
  deriving DecidableEq, Repr

/-- HTTP status code attached to each handler outcome. -/
def PredictResponse.statusCode : PredictResponse → ℕ
  | .modelNotLoaded => 500
  | .noData => 400
  | .missingFields _ _ => 400
  | .notNumbers => 400
  | .notPositive => 400
  | .internalError => 500
  | .success _ => 200

/-- The error message of each failure outcome (`none` for success; the
missing-fields message interpolates the carried lists). -/
def PredictResponse.errorMessage : PredictResponse → Option String
  | .modelNotLoaded => some "Model not loaded. Please ensure the model file exists."
  | .noData => some "No JSON data provided"
  | .missingFields _ _ => some "Missing required fields"
  | .notNumbers => some "All input values must be valid numbers"
  | .notPositive => some "All measurements must be positive numbers"
  | .internalError => some "Prediction failed"
  | .success _ => none

/-- The `features` list built in the handler: `float(data[f])` for the
four required fields, in the fixed source order; `none` when any
conversion raises (the `except (ValueError, TypeError)` branch). -/
def extractFeatures (d : Payload) : Option (List ℚ) := do
  let a ← (← d.lookup "sepal_length").toFloat
  let b ← (← d.lookup "sepal_width").toFloat
  let c ← (← d.lookup "petal_length").toFloat
  let e ← (← d.lookup "petal_width").toFloat
  pure [a, b, c, e]

/-- `confidence` as computed by the handler: `max(model.predict_proba(x)[0])`
inside a bare `except`, so an unsupported `predict_proba` (or an empty
probability vector, where Python `max` raises) yields `None`. -/
def computeConfidence (m : Model) (features : List ℚ) : Option ℚ :=
  match m.predict_proba with
  | none => none
  | some p =>
    match p features with
    | [] => none
    | x :: xs => some (xs.foldl max x)

/-- The `predict` handler of `app.py`, as a function of the loaded-model
global and the parsed request body.  Checks appear in source order:
model loaded, body truthy, required fields present, values numeric,
values positive; then classification, label lookup (an out-of-range
index raises `IndexError`, caught by the outer handler), confidence, and
the response object. -/
def predict (model : Option Model) (data : Option Payload) : PredictResponse :=
  match model with
  | none => .modelNotLoaded
  | some m =>
    match data with
    | none => .noData
    | some d =>
      if d = [] then .noData
      else
        let missing := required_fields.filter (fun f => ! hasField d f)
        if missing ≠ [] then .missingFields missing required_fields
        else
          match extractFeatures d with
          | none => .notNumbers
          | some features =>
            if features.any (fun f => f ≤ 0) then .notPositive
            else
              let prediction_idx := m.predict features
              match IRIS_CLASSES.get? prediction_idx with
              | none => .internalError
              | some prediction_class =>
                .success
                  { prediction := prediction_class
                    prediction_index := prediction_idx
                    confidence := computeConfidence m features
                    input_data :=
                      [("sepal_length", features.getD 0 0),
                       ("sepal_width", features.getD 1 0),
                       ("petal_length", features.getD 2 0),
                       ("petal_width", features.getD 3 0)]
                    all_classes := IRIS_CLASSES }

/-- The `/health` handler's JSON body. -/
structure HealthResponse where
  status : String
  model_status : String
  deriving DecidableEq, Repr

/-- The `health` handler of `app.py`: always a 200 with the process
status and whether the model global is set. -/
def health (model : Option Model) : HealthResponse :=
  { status := "healthy"
    model_status := if model.isSome then "loaded" else "not loaded" }

/-- `/health` always responds with HTTP 200 (Flask `jsonify` default). -/
def healthStatusCode : ℕ := 200

/-!
Trainer model (`src/project/model/train.py`).

`train_iris_model` fits an SVC, dumps it with `joblib.dump` to
`iris_model.pkl`, reloads it with `joblib.load`, and classifies the
fixed sample `[5.1, 3.5, 1.4, 0.2]` before printing the final success
message.  There is no exception handling: any exception aborts the run.
The fit and the dump are the fallible steps; we model each step's
outcome as an input to the run, and the artifact file on disk as a state
the run threads through.
-/

/-- State of the artifact file `iris_model.pkl` on disk. -/
inductive Artifact where
  /-- No file was written. -/
  | absent
  /-- A truncated/corrupt file: the dump raised mid-write.  Modelled from
  the spec: `joblib.dump` writes directly to the final path, with no
  temp-file-and-rename, so an exception during serialization can leave a
  partial file in place. -/
  | partial_
  /-- The complete serialized model. -/
  | complete (m : Model)

/-- Modelled from the spec: `joblib.load` round-trips — loading a
completely written artifact yields the saved classifier (identical
predictions); loading an absent or partial file raises. -/
def joblib_load : Artifact → Option Model
  | .absent => none
  | .partial_ => none
  | .complete m => some m

/-- Outcomes of the fallible external steps of one training run:
whether `model.fit` returns a fitted model or raises, and whether
`joblib.dump` raises mid-write. -/
structure TrainEnv where
  fitResult : Option Model
  dumpRaises : Bool

/-- Observable result of one training run: the artifact file left on
disk, whether the final success message was reached, and the class index
printed by the reload-and-classify self-check (when it ran). -/
structure TrainResult where
  file : Artifact
  success : Bool
  sampleLoadedPred : Option ℕ

/-- The fixed self-check sample of `train.py`:
`sepal_length=5.1, sepal_width=3.5, petal_length=1.4, petal_width=0.2`. -/
def sample_data : List ℚ := [51/10, 35/10, 14/10, 2/10]

/-- `train_iris_model` from `train.py`: fit, dump, reload, classify the
fixed sample, declare success.  An exception at any step aborts the run
there, leaving the file in whatever state the step reached. -/
def train_iris_model (env : TrainEnv) : TrainResult :=
  match env.fitResult with
  | none => { file := .absent, success := false, sampleLoadedPred := none }
  | some m =>
    if env.dumpRaises then
      { file := .partial_, success := false, sampleLoadedPred := none }
    else
      match joblib_load (.complete m) with
      | none => { file := .complete m, success := false, sampleLoadedPred := none }
      | some loaded_model =>
        { file := .complete m
          success := true
          sampleLoadedPred := some (loaded_model.predict sample_data) }

/-!
Helper lemmas and concrete fixtures shared by several theorems.
-/

/-- `List.foldl max x xs` (Python `max` over a nonempty list) is an
element of the list. -/
theorem foldl_max_mem (x : ℚ) (xs : List ℚ) : xs.foldl max x ∈ x :: xs := by
  induction xs generalizing x with
  | nil => simp
  | cons y ys ih =>
    rw [List.foldl_cons]
    rcases List.mem_cons.mp (ih (max x y)) with h1 | h1
    · rw [h1]
      rcases max_choice x y with hc | hc <;> rw [hc]
      · exact List.mem_cons_self _ _
      · exact List.mem_cons_of_mem _ (List.mem_cons_self _ _)
    · exact List.mem_cons_of_mem _ (List.mem_cons_of_mem _ h1)

/-- `List.foldl max x xs` bounds every element of `x :: xs` from above. -/
theorem le_foldl_max (x : ℚ) (xs : List ℚ) : ∀ y ∈ x :: xs, y ≤ xs.foldl max x := by
  induction xs generalizing x with
  | nil =>
    intro y hy
    simp only [List.mem_singleton] at hy
    simp [hy]
  | cons z zs ih =>
    intro y hy
    have hhead : max x z ≤ zs.foldl max (max x z) :=
      ih (max x z) (max x z) (List.mem_cons_self _ _)
    simp only [List.foldl_cons]
    rcases List.mem_cons.mp hy with rfl | hy1
    · exact le_trans (le_max_left _ _) hhead
    · rcases List.mem_cons.mp hy1 with rfl | hy2
      · exact le_trans (le_max_right _ _) hhead
      · exact ih (max x z) y (List.mem_cons_of_mem _ hy2)

/-- A concrete classifier for instantiating theorems: constant class 0,
with a three-class probability vector. -/
def testModel : Model :=
  { predict := fun _ => 0
    predict_proba := some (fun _ => [9/10, 1/20, 1/20]) }

/-- A concrete classifier without probability estimation support. -/
def testModelNoProba : Model :=
  { predict := fun _ => 0
    predict_proba := none }

/-- A concrete well-formed request body with positive numeric fields. -/
def testPayload : Payload :=
  [("sepal_length", .num 5), ("sepal_width", .num 3),
   ("petal_length", .num 1), ("petal_width", .num 2)]

/-- Success path of the handler, fully evaluated: with all four fields
present, numeric and positive, and the class index in range, the handler
returns exactly the success object built in the source. -/
theorem predict_success_eq (m : Model) (d : Payload) (q1 q2 q3 q4 : ℚ)
    (h1 : d.lookup "sepal_length" = some (.num q1))
    (h2 : d.lookup "sepal_width" = some (.num q2))
    (h3 : d.lookup "petal_length" = some (.num q3))
    (h4 : d.lookup "petal_width" = some (.num q4))
    (hp1 : 0 < q1) (hp2 : 0 < q2) (hp3 : 0 < q3) (hp4 : 0 < q4)
    (hidx : m.predict [q1, q2, q3, q4] < IRIS_CLASSES.length) :
    predict (some m) (some d) =
      .success
        { prediction := IRIS_CLASSES.get ⟨m.predict [q1, q2, q3, q4], hidx⟩
          prediction_index := m.predict [q1, q2, q3, q4]
          confidence := computeConfidence m [q1, q2, q3, q4]
          input_data := [("sepal_length", q1), ("sepal_width", q2),
                         ("petal_length", q3), ("petal_width", q4)]
          all_classes := IRIS_CLASSES } := by
  have hdne : ¬ d = [] := by
    intro h
    rw [h] at h1
    simp at h1
  have hmiss : required_fields.filter (fun f => ! hasField d f) = [] := by
    simp [required_fields, hasField, List.filter, h1, h2, h3, h4]
  have hfeat : extractFeatures d = some [q1, q2, q3, q4] := by
    simp [extractFeatures, h1, h2, h3, h4, Val.toFloat]
  have hpos : ([q1, q2, q3, q4].any fun f => decide (f ≤ 0)) = false := by
    simp only [List.any_cons, List.any_nil, Bool.or_false, Bool.or_eq_false_iff,
      decide_eq_false_iff_not, not_le]
    exact ⟨hp1, hp2, hp3, hp4⟩
  have hget := List.get?_eq_get hidx
  simp only [predict, if_neg hdne, hmiss, ne_eq, not_true_eq_false, if_false,
    hfeat, hpos, Bool.false_eq_true, hget]
  simp [List.getD_cons_zero, List.getD_cons_succ]

/-- C1: The validation checks of POST /predict run in the fixed source
order — model loaded, body present and truthy, required fields present,
values numeric, values positive — and the first failing check alone
determines the response, each check with its own distinct response
(500 for the model check, 400 for the four input checks); a later
check's error is never returned when an earlier check fails. -/
theorem predict_validation_order (model : Option Model) (data : Option Payload) :
    (model = none → predict model data = .modelNotLoaded ∧
      PredictResponse.modelNotLoaded.statusCode = 500) ∧
    (∀ m, model = some m → (data = none ∨ data = some []) →
      predict model data = .noData ∧ PredictResponse.noData.statusCode = 400) ∧
    (∀ m d, model = some m → data = some d → ¬ d = [] →
      ¬ required_fields.filter (fun f => ! hasField d f) = [] →
      predict model data =
        .missingFields (required_fields.filter (fun f => ! hasField d f))
          required_fields ∧
      (PredictResponse.missingFields
        (required_fields.filter (fun f => ! hasField d f))
        required_fields).statusCode = 400) ∧
    (∀ m d, model = some m → data = some d → ¬ d = [] →
      required_fields.filter (fun f => ! hasField d f) = [] →
      extractFeatures d = none →
      predict model data = .notNumbers ∧
      PredictResponse.notNumbers.statusCode = 400) ∧
    (∀ m d fs, model = some m → data = some d → ¬ d = [] →
      required_fields.filter (fun f => ! hasField d f) = [] →
      extractFeatures d = some fs →
      (fs.any fun f => decide (f ≤ 0)) = true →
      predict model data = .notPositive ∧
      PredictResponse.notPositive.statusCode = 400) := by
  refine ⟨?_, ?_, ?_, ?_, ?_⟩
  · rintro rfl
    exact ⟨rfl, rfl⟩
  · rintro m rfl (rfl | rfl)
    · exact ⟨rfl, rfl⟩
    · exact ⟨by simp [predict], rfl⟩
  · rintro m d rfl rfl hne hmiss
    refine ⟨?_, rfl⟩
    simp only [predict, if_neg hne, ne_eq]
    rw [if_pos hmiss]
  · rintro m d rfl rfl hne hmiss hbad
    refine ⟨?_, rfl⟩
    simp only [predict, if_neg hne, ne_eq, hmiss, not_true_eq_false, if_false, hbad]
  · rintro m d fs rfl rfl hne hmiss hfeat hneg
    refine ⟨?_, rfl⟩
    simp only [predict, if_neg hne, ne_eq, hmiss, not_true_eq_false, if_false,
      hfeat, hneg, if_true]

/-- Witness for `predict_validation_order`: the model check fires at a
concrete valid body, and the body-truthiness check fires at the empty
object for a concrete loaded model. -/
theorem predict_validation_order_witness :
    predict none (some testPayload) = .modelNotLoaded ∧
    predict (some testModel) (some []) = .noData :=
  ⟨((predict_validation_order none (some testPayload)).1 rfl).1,
   ((predict_validation_order (some testModel) (some [])).2.1 testModel rfl
     (Or.inr rfl)).1⟩

/-- C6: with no model loaded, every /predict request is answered by the
500 model-not-loaded error regardless of the body, and /health reports
model_status "not loaded"; with a model loaded, /health reports
"loaded".  /health is a 200 success in both states. -/
theorem model_gate_and_health :
    (∀ data, predict none data = .modelNotLoaded) ∧
    PredictResponse.modelNotLoaded.statusCode = 500 ∧
    PredictResponse.modelNotLoaded.errorMessage =
      some "Model not loaded. Please ensure the model file exists." ∧
    health none = { status := "healthy", model_status := "not loaded" } ∧
    (∀ m, health (some m) = { status := "healthy", model_status := "loaded" }) ∧
    healthStatusCode = 200 :=
  ⟨fun _ => rfl, rfl, rfl, rfl, fun _ => rfl, rfl⟩

/-- C10: the empty JSON object is falsy in Python, so `if not data`
answers 400 `No JSON data provided` before the missing-fields check can
run; the missing-fields response is reachable only for non-empty
bodies. -/
theorem predict_empty_object_no_data (m : Model) :
    predict (some m) (some []) = .noData ∧
    PredictResponse.noData.errorMessage = some "No JSON data provided" ∧
    PredictResponse.noData.statusCode = 400 ∧
    (∀ d missing req,
      predict (some m) (some d) = .missingFields missing req → ¬ d = []) := by
  refine ⟨by simp [predict], rfl, rfl, ?_⟩
  rintro d missing req h rfl
  simp [predict] at h

/-- Witness for `predict_empty_object_no_data` at a concrete model and a
concrete one-field body. -/
theorem predict_empty_object_no_data_witness :
    predict (some testModel) (some []) = .noData ∧
    ¬ ([("sepal_length", Val.num 1)] : Payload) = [] :=
  ⟨(predict_empty_object_no_data testModel).1,
   (predict_empty_object_no_data testModel).2.2.2
     [("sepal_length", Val.num 1)]
     ["sepal_width", "petal_length", "petal_width"] required_fields (by rfl)⟩

/-- A chain of `toFloat` binds is `none` as soon as one conversion
fails. -/
theorem toFloat_chain_none (v1 v2 v3 v4 : Val)
    (h : v1.toFloat = none ∨ v2.toFloat = none ∨ v3.toFloat = none ∨
      v4.toFloat = none) :
    (v1.toFloat.bind fun a => v2.toFloat.bind fun b => v3.toFloat.bind fun c =>
      v4.toFloat.bind fun e => some [a, b, c, e]) = none := by
  cases v1 <;> cases v2 <;> cases v3 <;> cases v4 <;> simp_all [Val.toFloat]

/-- C3: a non-empty body missing at least one required field gets the
400 missing-fields response, whose missing list holds exactly the
required field names absent from the body (no more, no fewer), together
with the full four-element required-fields list. -/
theorem predict_missing_fields_exact (m : Model) (d : Payload)
    (hne : ¬ d = [])
    (hmiss : ∃ f ∈ required_fields, ¬ hasField d f = true) :
    ∃ missing,
      predict (some m) (some d) = .missingFields missing required_fields ∧
      (∀ f, f ∈ missing ↔ (f ∈ required_fields ∧ ¬ hasField d f = true)) ∧
      required_fields =
        ["sepal_length", "sepal_width", "petal_length", "petal_width"] ∧
      (PredictResponse.missingFields missing required_fields).statusCode = 400 := by
  refine ⟨required_fields.filter (fun f => ! hasField d f), ?_, ?_, rfl, rfl⟩
  · have hfil : ¬ required_fields.filter (fun f => ! hasField d f) = [] := by
      obtain ⟨f, hf, hnf⟩ := hmiss
      intro hempty
      have hmem : f ∈ required_fields.filter (fun f => ! hasField d f) := by
        rw [List.mem_filter]
        exact ⟨hf, by simp [hnf]⟩
      rw [hempty] at hmem
      simp at hmem
    simp only [predict, if_neg hne, ne_eq]
    rw [if_pos hfil]
  · intro f
    rw [List.mem_filter]
    simp

/-- Witness for `predict_missing_fields_exact` at a concrete one-field
body. -/
theorem predict_missing_fields_exact_witness :
    ∃ missing,
      predict (some testModel) (some [("sepal_length", Val.num 1)]) =
        .missingFields missing required_fields ∧
      (∀ f, f ∈ missing ↔ (f ∈ required_fields ∧
        ¬ hasField [("sepal_length", Val.num 1)] f = true)) ∧
      required_fields =
        ["sepal_length", "sepal_width", "petal_length", "petal_width"] ∧
      (PredictResponse.missingFields missing required_fields).statusCode = 400 :=
  predict_missing_fields_exact testModel [("sepal_length", Val.num 1)]
    (by simp) ⟨"sepal_width", by decide, by decide⟩

/-- C4: with all four required fields present but some value not
convertible to a number, the handler answers the 400 generic message
`All input values must be valid numbers`, which names no particular
field. -/
theorem predict_non_numeric_generic (m : Model) (d : Payload)
    (hall : ∀ f ∈ required_fields, hasField d f = true)
    (hbad : ∃ f ∈ required_fields, ∃ v, d.lookup f = some v ∧ v.toFloat = none) :
    predict (some m) (some d) = .notNumbers ∧
    PredictResponse.notNumbers.errorMessage =
      some "All input values must be valid numbers" ∧
    PredictResponse.notNumbers.statusCode = 400 := by
  have hs1 : (d.lookup "sepal_length").isSome = true :=
    hall "sepal_length" (by simp [required_fields])
  have hs2 : (d.lookup "sepal_width").isSome = true :=
    hall "sepal_width" (by simp [required_fields])
  have hs3 : (d.lookup "petal_length").isSome = true :=
    hall "petal_length" (by simp [required_fields])
  have hs4 : (d.lookup "petal_width").isSome = true :=
    hall "petal_width" (by simp [required_fields])
  obtain ⟨v1, hv1⟩ := Option.isSome_iff_exists.mp hs1
  obtain ⟨v2, hv2⟩ := Option.isSome_iff_exists.mp hs2
  obtain ⟨v3, hv3⟩ := Option.isSome_iff_exists.mp hs3
  obtain ⟨v4, hv4⟩ := Option.isSome_iff_exists.mp hs4
  have hdne : ¬ d = [] := by
    intro h
    rw [h] at hv1
    simp at hv1
  have hmiss : required_fields.filter (fun f => ! hasField d f) = [] := by
    rw [List.filter_eq_nil_iff]
    intro f hf
    simp [hall f hf]
  have hfeat : extractFeatures d = none := by
    obtain ⟨f, hf, v, hv, hvf⟩ := hbad
    have hdisj : v1.toFloat = none ∨ v2.toFloat = none ∨ v3.toFloat = none ∨
        v4.toFloat = none := by
      simp only [required_fields, List.mem_cons, List.not_mem_nil, or_false] at hf
      rcases hf with rfl | rfl | rfl | rfl
      · rw [hv1] at hv; injection hv with h; subst h; exact Or.inl hvf
      · rw [hv2] at hv; injection hv with h; subst h; exact Or.inr (Or.inl hvf)
      · rw [hv3] at hv; injection hv with h; subst h
        exact Or.inr (Or.inr (Or.inl hvf))
      · rw [hv4] at hv; injection hv with h; subst h
        exact Or.inr (Or.inr (Or.inr hvf))
    simp only [extractFeatures, hv1, hv2, hv3, hv4, Option.some_bind]
    exact toFloat_chain_none v1 v2 v3 v4 hdisj
  refine ⟨?_, rfl, rfl⟩
  simp only [predict, if_neg hdne, ne_eq, hmiss, not_true_eq_false, if_false, hfeat]

/-- Witness for `predict_non_numeric_generic`: a body whose
`sepal_width` is not numeric. -/
theorem predict_non_numeric_generic_witness :
    predict (some testModel)
      (some [("sepal_length", Val.num 1), ("sepal_width", Val.nonnum),
             ("petal_length", Val.num 1), ("petal_width", Val.num 1)]) =
      .notNumbers ∧
    PredictResponse.notNumbers.errorMessage =
      some "All input values must be valid numbers" ∧
    PredictResponse.notNumbers.statusCode = 400 :=
  predict_non_numeric_generic testModel
    [("sepal_length", Val.num 1), ("sepal_width", Val.nonnum),
     ("petal_length", Val.num 1), ("petal_width", Val.num 1)]
    (by decide) ⟨"sepal_width", by decide, Val.nonnum, by decide, rfl⟩

/-- C5: when all four fields are present and convert to numbers, any
value less than or equal to zero yields the 400 positivity error; and
when every value is strictly positive — however implausible — the
positivity check never fires. -/
theorem predict_positivity (m : Model) (d : Payload) (fs : List ℚ)
    (hall : ∀ f ∈ required_fields, hasField d f = true)
    (hfs : extractFeatures d = some fs) :
    ((∃ x ∈ fs, x ≤ 0) →
      predict (some m) (some d) = .notPositive ∧
      PredictResponse.notPositive.errorMessage =
        some "All measurements must be positive numbers" ∧
      PredictResponse.notPositive.statusCode = 400) ∧
    ((∀ x ∈ fs, 0 < x) → ¬ predict (some m) (some d) = .notPositive) := by
  have hs1 : (d.lookup "sepal_length").isSome = true :=
    hall "sepal_length" (by simp [required_fields])
  obtain ⟨v1, hv1⟩ := Option.isSome_iff_exists.mp hs1
  have hdne : ¬ d = [] := by
    intro h
    rw [h] at hv1
    simp at hv1
  have hmiss : required_fields.filter (fun f => ! hasField d f) = [] := by
    rw [List.filter_eq_nil_iff]
    intro f hf
    simp [hall f hf]
  constructor
  · intro hneg
    have hany : (fs.any fun f => decide (f ≤ 0)) = true := by
      rw [List.any_eq_true]
      obtain ⟨x, hx, hx0⟩ := hneg
      exact ⟨x, hx, by simpa using hx0⟩
    refine ⟨?_, rfl, rfl⟩
    simp only [predict, if_neg hdne, ne_eq, hmiss, not_true_eq_false, if_false,
      hfs, hany, if_true]
  · intro hpos
    have hany : (fs.any fun f => decide (f ≤ 0)) = false := by
      rw [Bool.eq_false_iff, ne_eq, List.any_eq_true]
      rintro ⟨x, hx, hx0⟩
      exact absurd (hpos x hx) (by simpa using hx0)
    simp only [predict, if_neg hdne, ne_eq, hmiss, not_true_eq_false, if_false,
      hfs, hany, Bool.false_eq_true, if_false]
    rcases hg : IRIS_CLASSES.get? (m.predict fs) with _ | c <;> simp [hg]

/-- Witness for `predict_positivity`: a body whose `petal_width` is
zero triggers the positivity error; the all-positive body does not. -/
theorem predict_positivity_witness :
    (predict (some testModel)
       (some [("sepal_length", Val.num 1), ("sepal_width", Val.num 1),
              ("petal_length", Val.num 1), ("petal_width", Val.num 0)]) =
      .notPositive ∧
     PredictResponse.notPositive.errorMessage =
       some "All measurements must be positive numbers" ∧
     PredictResponse.notPositive.statusCode = 400) ∧
    ¬ predict (some testModel) (some testPayload) = .notPositive :=
  ⟨(predict_positivity testModel
      [("sepal_length", Val.num 1), ("sepal_width", Val.num 1),
       ("petal_length", Val.num 1), ("petal_width", Val.num 0)]
      [1, 1, 1, 0] (by decide) rfl).1
      ⟨0, by simp, le_refl 0⟩,
   (predict_positivity testModel testPayload [5, 3, 1, 2]
      (by decide) rfl).2 (by norm_num)⟩

/-- C2: for a loaded model and a body whose four fields are positive
numbers, the handler returns the 200 success response: the
prediction_index is the model's class index and lies in {0,1,2}, the
prediction is the fixed label table at that index, the confidence is
nullable, the input_data echoes the four fields by name, and the
all_classes list is the fixed three labels in order. -/
theorem predict_success_contract (m : Model) (d : Payload) (q1 q2 q3 q4 : ℚ)
    (h1 : d.lookup "sepal_length" = some (.num q1))
    (h2 : d.lookup "sepal_width" = some (.num q2))
    (h3 : d.lookup "petal_length" = some (.num q3))
    (h4 : d.lookup "petal_width" = some (.num q4))
    (hp1 : 0 < q1) (hp2 : 0 < q2) (hp3 : 0 < q3) (hp4 : 0 < q4)
    (hidx : m.predict [q1, q2, q3, q4] < 3) :
    ∃ r, predict (some m) (some d) = .success r ∧
      r.prediction_index = m.predict [q1, q2, q3, q4] ∧
      (r.prediction_index = 0 ∨ r.prediction_index = 1 ∨ r.prediction_index = 2) ∧
      IRIS_CLASSES.get? r.prediction_index = some r.prediction ∧
      r.confidence = computeConfidence m [q1, q2, q3, q4] ∧
      r.input_data = [("sepal_length", q1), ("sepal_width", q2),
                      ("petal_length", q3), ("petal_width", q4)] ∧
      r.all_classes = ["Setosa", "Versicolor", "Virginica"] ∧
      (PredictResponse.success r).statusCode = 200 := by
  have hlen : m.predict [q1, q2, q3, q4] < IRIS_CLASSES.length := by
    simpa [IRIS_CLASSES] using hidx
  refine ⟨_, predict_success_eq m d q1 q2 q3 q4 h1 h2 h3 h4 hp1 hp2 hp3 hp4 hlen,
    rfl, ?_, ?_, rfl, rfl, rfl, rfl⟩
  · show m.predict [q1, q2, q3, q4] = 0 ∨ m.predict [q1, q2, q3, q4] = 1 ∨
      m.predict [q1, q2, q3, q4] = 2
    omega
  · exact List.get?_eq_get hlen

/-- Witness for `predict_success_contract` at the spec's end-to-end
sample and a concrete model. -/
theorem predict_success_contract_witness :
    ∃ r, predict (some testModel) (some testPayload) = .success r ∧
      r.prediction_index = testModel.predict [5, 3, 1, 2] ∧
      (r.prediction_index = 0 ∨ r.prediction_index = 1 ∨ r.prediction_index = 2) ∧
      IRIS_CLASSES.get? r.prediction_index = some r.prediction ∧
      r.confidence = computeConfidence testModel [5, 3, 1, 2] ∧
      r.input_data = [("sepal_length", 5), ("sepal_width", 3),
                      ("petal_length", 1), ("petal_width", 2)] ∧
      r.all_classes = ["Setosa", "Versicolor", "Virginica"] ∧
      (PredictResponse.success r).statusCode = 200 :=
  predict_success_contract testModel testPayload 5 3 1 2
    rfl rfl rfl rfl (by norm_num) (by norm_num) (by norm_num) (by norm_num)
    (by decide)

/-- C7: on the success path, a model that supports probability
estimation yields a confidence equal to the maximum entry of its
per-class probability vector for the sample; a model without support
yields a null confidence rather than an error. -/
theorem predict_confidence_rule (m : Model) (d : Payload) (q1 q2 q3 q4 : ℚ)
    (h1 : d.lookup "sepal_length" = some (.num q1))
    (h2 : d.lookup "sepal_width" = some (.num q2))
    (h3 : d.lookup "petal_length" = some (.num q3))
    (h4 : d.lookup "petal_width" = some (.num q4))
    (hp1 : 0 < q1) (hp2 : 0 < q2) (hp3 : 0 < q3) (hp4 : 0 < q4)
    (hidx : m.predict [q1, q2, q3, q4] < IRIS_CLASSES.length) :
    (m.predict_proba = none →
      ∃ r, predict (some m) (some d) = .success r ∧ r.confidence = none) ∧
    (∀ p ps, m.predict_proba = some p → p [q1, q2, q3, q4] = ps → ¬ ps = [] →
      ∃ r c, predict (some m) (some d) = .success r ∧ r.confidence = some c ∧
        c ∈ ps ∧ ∀ x ∈ ps, x ≤ c) := by
  have hsucc := predict_success_eq m d q1 q2 q3 q4 h1 h2 h3 h4 hp1 hp2 hp3 hp4 hidx
  constructor
  · intro hnone
    exact ⟨_, hsucc, by simp [computeConfidence, hnone]⟩
  · intro p ps hp hps hne
    rcases ps with _ | ⟨x, xs⟩
    · exact absurd rfl hne
    · refine ⟨_, xs.foldl max x, hsucc, ?_, foldl_max_mem x xs, le_foldl_max x xs⟩
      simp [computeConfidence, hp, hps]

/-- Witness for `predict_confidence_rule`: a probability-backed model
gives the maximum probability, a probability-free model gives null. -/
theorem predict_confidence_rule_witness :
    (∃ r, predict (some testModelNoProba) (some testPayload) = .success r ∧
      r.confidence = none) ∧
    (∃ r c, predict (some testModel) (some testPayload) = .success r ∧
      r.confidence = some c ∧ c ∈ ([9/10, 1/20, 1/20] : List ℚ) ∧
      ∀ x ∈ ([9/10, 1/20, 1/20] : List ℚ), x ≤ c) :=
  ⟨(predict_confidence_rule testModelNoProba testPayload 5 3 1 2 rfl rfl rfl rfl
      (by norm_num) (by norm_num) (by norm_num) (by norm_num) (by decide)).1 rfl,
   (predict_confidence_rule testModel testPayload 5 3 1 2 rfl rfl rfl rfl
      (by norm_num) (by norm_num) (by norm_num) (by norm_num) (by decide)).2
      (fun _ => [9/10, 1/20, 1/20]) [9/10, 1/20, 1/20] rfl rfl (by decide)⟩

/-- Whether the artifact on disk is the complete serialized model. -/
def Artifact.isComplete : Artifact → Bool
  | .complete _ => true
  | _ => false

/-- Whether no artifact file is present on disk. -/
def Artifact.isAbsent : Artifact → Bool
  | .absent => true
  | _ => false

/-- C8 counterexample: a run whose `joblib.dump` raises mid-write aborts
without success, but leaves a partial artifact file on disk — a file
that exists yet is not the complete serialized model, contradicting the
claim that the artifact is always either complete or absent. -/
theorem train_dump_failure_leaves_partial :
    (train_iris_model { fitResult := some testModel, dumpRaises := true }).success
      = false ∧
    (train_iris_model { fitResult := some testModel, dumpRaises := true }).file
      = .partial_ ∧
    Artifact.partial_.isComplete = false ∧
    Artifact.partial_.isAbsent = false :=
  ⟨rfl, rfl, rfl, rfl⟩

/-- C8 amended: any exception during fit or serialization aborts the run
as fatal (the success message is never reached); an exception during fit
leaves no artifact file at all; but an exception during serialization
can leave a partial artifact file, because the trainer writes directly
to the final path; whenever the run succeeds, the file on disk is the
complete serialized model. -/
theorem train_abort_behavior (env : TrainEnv) :
    (env.fitResult = none →
      (train_iris_model env).success = false ∧
      (train_iris_model env).file = .absent) ∧
    (env.dumpRaises = true → (train_iris_model env).success = false) ∧
    ((train_iris_model env).success = true →
      ∃ m, env.fitResult = some m ∧ (train_iris_model env).file = .complete m) := by
  refine ⟨?_, ?_, ?_⟩
  · intro h
    simp [train_iris_model, h]
  · intro h
    rcases hf : env.fitResult with _ | m <;> simp [train_iris_model, hf, h]
  · intro h
    rcases hf : env.fitResult with _ | m
    · simp [train_iris_model, hf] at h
    · cases hd : env.dumpRaises with
      | true => simp [train_iris_model, hf, hd] at h
      | false =>
        exact ⟨m, rfl, by simp [train_iris_model, hf, hd, joblib_load]⟩

/-- Witness for `train_abort_behavior`: a run whose fit raises leaves no
file and no success, and a run whose dump raises never succeeds. -/
theorem train_abort_behavior_witness :
    ((train_iris_model { fitResult := none, dumpRaises := false }).success = false ∧
     (train_iris_model { fitResult := none, dumpRaises := false }).file = .absent) ∧
    (train_iris_model { fitResult := some testModelNoProba, dumpRaises := true }).success
      = false :=
  ⟨(train_abort_behavior { fitResult := none, dumpRaises := false }).1 rfl,
   (train_abort_behavior { fitResult := some testModelNoProba, dumpRaises := true }).2.1
     rfl⟩

/-- C9: a run whose fit and dump both succeed declares success, its
written artifact round-trips through `joblib_load` to the fitted
classifier, and the reload-and-classify self-check — run before the
success message — classifies the fixed sample (5.1, 3.5, 1.4, 0.2) to
the same class index as the original fitted model; no run declares
success without the self-check having produced a prediction. -/
theorem train_roundtrip_selfcheck (env : TrainEnv) (m : Model)
    (hfit : env.fitResult = some m) (hdump : env.dumpRaises = false) :
    (train_iris_model env).success = true ∧
    (train_iris_model env).file = .complete m ∧
    joblib_load (.complete m) = some m ∧
    (train_iris_model env).sampleLoadedPred = some (m.predict sample_data) ∧
    sample_data = [51/10, 35/10, 14/10, 2/10] ∧
    (∀ e, (train_iris_model e).success = true →
      ((train_iris_model e).sampleLoadedPred).isSome = true) := by
  refine ⟨?_, ?_, rfl, ?_, rfl, ?_⟩
  · simp [train_iris_model, hfit, hdump, joblib_load]
  · simp [train_iris_model, hfit, hdump, joblib_load]
  · simp [train_iris_model, hfit, hdump, joblib_load]
  · intro e he
    rcases hf : e.fitResult with _ | m2
    · simp [train_iris_model, hf] at he
    · cases hd : e.dumpRaises with
      | true => simp [train_iris_model, hf, hd] at he
      | false => simp [train_iris_model, hf, hd, joblib_load]

/-- Witness for `train_roundtrip_selfcheck` at a concrete fitted
model. -/
theorem train_roundtrip_selfcheck_witness :
    (train_iris_model { fitResult := some testModel, dumpRaises := false }).success
      = true ∧
    (train_iris_model { fitResult := some testModel, dumpRaises := false }).sampleLoadedPred
      = some (testModel.predict sample_data) :=
  ⟨(train_roundtrip_selfcheck { fitResult := some testModel, dumpRaises := false }
      testModel rfl rfl).1,
   (train_roundtrip_selfcheck { fitResult := some testModel, dumpRaises := false }
      testModel rfl rfl).2.2.2.1⟩
